import Mathlib

/-!
Verification of the KORBUX-IA middleware layer: a shallow embedding of the
request-metrics collector (`metricsMiddleware`, `getLastRequests`), the
authentication middleware (`authenticateRequest`), the request-body validator
(`validarInteraccion`) and the typed error factory (`AppError` / `Errores`),
together with theorems settling the specification's claims about them.

JavaScript values that the code inspects dynamically (`typeof` checks,
truthiness tests) are embedded as the inductive `JsValue`; JSON documents
built by the code are embedded as the inductive `Json`.  String operations
that the source performs (`split`, `trim`, `startsWith`) are given
structurally recursive models over `List Char` so that every definition is
executable and kernel-reducible.
-/

/-- A dynamically-typed JavaScript value, as far as the middleware inspects
one: the code only ever distinguishes strings, numbers, booleans, `null`
and `undefined`.  The number NaN gets its own constructor because it is a
`"number"` for `typeof` yet every ordering comparison on it is false,
which matters for the code sanitization in `Errores.Custom`. -/
inductive JsValue where
  | vUndefined : JsValue
  | vNull : JsValue
  | vStr (s : String) : JsValue
  | vNum (n : Int) : JsValue
  | vNaN : JsValue
  | vBool (b : Bool) : JsValue
deriving DecidableEq

/-- A JSON document as built by the middleware (objects keep field order,
exactly as a JavaScript object literal does). -/
inductive Json where
  | str (s : String) : Json
  | num (n : Int) : Json
  | obj (fields : List (String × Json)) : Json

/-- JavaScript truthiness for the embedded values: `undefined`, `null`,
the empty string, `0`, NaN and `false` are falsy. -/
def jsTruthy : JsValue → Bool
  | .vUndefined => false
  | .vNull => false
  | .vStr s => s != ""
  | .vNum n => n != 0
  | .vNaN => false
  | .vBool b => b

/-- The JavaScript `typeof` operator on the embedded values
(`typeof null` is `"object"`, `typeof NaN` is `"number"`). -/
def jsTypeof : JsValue → String
  | .vUndefined => "undefined"
  | .vNull => "object"
  | .vStr _ => "string"
  | .vNum _ => "number"
  | .vNaN => "number"
  | .vBool _ => "boolean"

/-- The string payload of a `JsValue`; only ever used after a
`typeof x === "string"` guard in the source, so the default is irrelevant. -/
def strVal : JsValue → String
  | .vStr s => s
  | _ => ""

/-- Whitespace as trimmed by JavaScript `String.prototype.trim` (the
characters the sources can actually contain). -/
def isJsSpace (c : Char) : Bool :=
  c == ' ' || c == '\t' || c == '\n' || c == '\r'

/-- Model of JavaScript `String.prototype.trim`: drop whitespace from both
ends. -/
def jsTrim (s : String) : String :=
  String.mk ((((s.data.dropWhile isJsSpace).reverse).dropWhile isJsSpace).reverse)

/-- Model of JavaScript `String.prototype.split` with a one-character
separator: `""` splits to `[""]`, a trailing separator yields a trailing
empty piece, exactly as in JavaScript. -/
def splitOnChar (sep : Char) : List Char → List (List Char)
  | [] => [[]]
  | c :: t =>
    if c = sep then [] :: splitOnChar sep t
    else
      match splitOnChar sep t with
      | [] => [[c]]
      | h :: r => (c :: h) :: r

/-- Field lookup on a JavaScript object body: destructuring a missing key
yields `undefined`. -/
def getField (body : List (String × JsValue)) (k : String) : JsValue :=
  ((body.find? (fun p => p.1 == k)).map Prod.snd).getD .vUndefined

/-- Key list of a JSON object (the shape of a serialized record). -/
def jsonKeys : Json → List String
  | .obj fs => fs.map Prod.fst
  | _ => []

/-- Field lookup in a JSON object. -/
def jLookup (j : Json) (k : String) : Option Json :=
  match j with
  | .obj fs => (fs.find? (fun p => p.1 == k)).map Prod.snd
  | _ => none

/-! ## Metrics middleware (`metrics` module)

`metricsMiddleware` increments `totalRequests` when a request arrives and, on
the response's `finish` event, classifies the status code, appends a log
entry and evicts the oldest entry once the log exceeds `MAX_LOG_ENTRIES`.
The mutable module-level `metricsStore` is embedded as an explicit state
record threaded through a step function over request lifecycle events. -/

/-- The data recorded by the `finish` callback for one completed request:
`method`/`originalUrl` of the request, the response status code, the
elapsed nanoseconds from the two `process.hrtime.bigint()` readings
(non-negative, since the monotonic clock never runs backwards), and the
`new Date().toISOString()` string taken at completion. -/
structure FinishInfo where
  method : String
  path : String
  statusCode : Nat
  durationNs : Nat
  timestamp : String

/-- The module-level `metricsStore` object.  `customCounters` is the `Map`
used by `count`, untouched by the operations verified here. -/
structure MetricsStore where
  totalRequests : Nat
  successfulResponses : Nat
  failedResponses : Nat
  customCounters : List (String × Nat)
  requestLog : List Json

/-- The initial value of `metricsStore` at module load. -/
def metricsStore : MetricsStore :=
  { totalRequests := 0
    successfulResponses := 0
    failedResponses := 0
    customCounters := []
    requestLog := [] }

/-- `MAX_LOG_ENTRIES = 1000`. -/
def MAX_LOG_ENTRIES : Nat := 1000

/-- The log entry object literal built in the `finish` callback.  The
duration field is `parseFloat(Number(durationNs / 1_000_000n).toFixed(2))`:
bigint division truncates to an integer count of milliseconds, and
`toFixed(2)`/`parseFloat` round-trip that integer unchanged. -/
def mkLogEntry (r : FinishInfo) : Json :=
  .obj [("method", .str r.method),
        ("path", .str r.path),
        ("status", .num r.statusCode),
        ("durationMs", .num ((r.durationNs / 1000000 : Nat) : Int)),
        ("timestamp", .str r.timestamp)]

/-- `requestLog.push(logEntry)` followed by
`if (requestLog.length > MAX_LOG_ENTRIES) requestLog.shift()` (shift removes
the first, i.e. oldest, element of the pushed list). -/
def pushEvict (l : List Json) (e : Json) : List Json :=
  if MAX_LOG_ENTRIES < (l ++ [e]).length then (l ++ [e]).tail else l ++ [e]

/-- The body of the `res.on("finish", ...)` callback: classify the status
code into `successfulResponses`/`failedResponses`, then append the log
entry and evict if over capacity. -/
def finishStep (s : MetricsStore) (r : FinishInfo) : MetricsStore :=
  if 200 ≤ r.statusCode ∧ r.statusCode < 400 then
    { s with successfulResponses := s.successfulResponses + 1
             requestLog := pushEvict s.requestLog (mkLogEntry r) }
  else
    { s with failedResponses := s.failedResponses + 1
             requestLog := pushEvict s.requestLog (mkLogEntry r) }

/-- A request-lifecycle event observed by the metrics middleware: the
synchronous entry of `metricsMiddleware` (which increments
`totalRequests`) or the later firing of that request's `finish` callback. -/
inductive MEvent where
  | start : MEvent
  | finish (r : FinishInfo) : MEvent

/-- One event's effect on the store. -/
def metricsStep (s : MetricsStore) : MEvent → MetricsStore
  | .start => { s with totalRequests := s.totalRequests + 1 }
  | .finish r => finishStep s r

/-- Run the metrics middleware over a sequence of lifecycle events. -/
def mrun (s : MetricsStore) (evs : List MEvent) : MetricsStore :=
  evs.foldl metricsStep s

/-- Number of `start` events in a trace. -/
def countStarts : List MEvent → Nat
  | [] => 0
  | .start :: t => countStarts t + 1
  | .finish _ :: t => countStarts t

/-- Number of `finish` events in a trace. -/
def countFinishes : List MEvent → Nat
  | [] => 0
  | .start :: t => countFinishes t
  | .finish _ :: t => countFinishes t + 1

/-- Number of `finish` events whose status code lies in `[200, 400)`. -/
def countSucc : List MEvent → Nat
  | [] => 0
  | .start :: t => countSucc t
  | .finish r :: t =>
    (if 200 ≤ r.statusCode ∧ r.statusCode < 400 then 1 else 0) + countSucc t

/-- Number of `finish` events whose status code lies outside `[200, 400)`. -/
def countFail : List MEvent → Nat
  | [] => 0
  | .start :: t => countFail t
  | .finish r :: t =>
    (if 200 ≤ r.statusCode ∧ r.statusCode < 400 then 0 else 1) + countFail t

/-! ## `getLastRequests`

`getLastRequests(limit = 10)` computes
`Math.max(1, parseInt(limit, 10) || 10)`, returns `[]` on an empty log and
otherwise `requestLog.slice(-effectiveLimit).reverse()`. -/

/-- Numeric value of a decimal digit sequence. -/
def digitsToNat (cs : List Char) : Nat :=
  cs.foldl (fun a c => a * 10 + (c.toNat - 48)) 0

/-- Model of JavaScript `parseInt(x, 10)`: a number argument parses back to
itself (the code only ever passes integers); a string is trimmed, an
optional sign is read, and the leading run of decimal digits is parsed;
`none` stands for `NaN` (no digits, or a non-string non-number argument
whose string form starts with no digit). -/
def parseIntJs : JsValue → Option Int
  | .vNum n => some n
  | .vStr s =>
    let cs := (jsTrim s).data
    let signed : Int × List Char :=
      match cs with
      | '-' :: t => (-1, t)
      | '+' :: t => (1, t)
      | t => (1, t)
    let ds := signed.2.takeWhile Char.isDigit
    if ds.isEmpty then none else some (signed.1 * (digitsToNat ds : Int))
  | _ => none

/-- JavaScript `a || b` on a possibly-`NaN` number: `NaN` and `0` are falsy
and yield the fallback. -/
def jsOrDefault (o : Option Int) (d : Int) : Int :=
  match o with
  | none => d
  | some n => if n = 0 then d else n

/-- The exported `getLastRequests(limit = 10)` function.  `slice(-n)` for
`n ≥ 1` keeps the last `min(n, length)` elements, i.e. drops
`length - n` clamped at zero, which is exactly truncated `Nat` subtraction. -/
def getLastRequests (log : List Json) (limit : JsValue) : List Json :=
  let effectiveLimit : Int := max 1 (jsOrDefault (parseIntJs limit) 10)
  if log.length = 0 then []
  else (log.drop (log.length - effectiveLimit.toNat)).reverse

/-! ## Authentication middleware (`auth` module)

`authenticateRequest` dispatches on the `X-API-KEY` header (JavaScript
truthiness: absent or empty means not taken), then on an
`Authorization: Bearer <token>` header, and otherwise rejects with 403.
The JWT library call `jwt.verify(token, secret)` is external code; it is
embedded as an oracle parameter returning one of the outcomes the `catch`
block distinguishes by `error.name`. -/

/-- Outcome of `jwt.verify`: success with the decoded claims, or a thrown
error whose `name` is `TokenExpiredError`, `JsonWebTokenError`, or
anything else (the `catch` block's default branch). -/
inductive VerifyOutcome where
  | ok (user : Json) : VerifyOutcome
  | expired : VerifyOutcome
  | malformed : VerifyOutcome
  | other : VerifyOutcome

/-- The `req.auth` value attached on success. -/
inductive AuthAttach where
  | apiKey (key : String) : AuthAttach
  | jwt (user : Json) : AuthAttach

/-- Terminal action of the middleware: call `next()` with `req.auth` set,
or send `res.status(code).json(...)` whose body carries the given message
(the body also carries `status: "error"`, the same code, and a fresh
timestamp; code and message determine it). -/
inductive AuthOutcome where
  | next (auth : AuthAttach) : AuthOutcome
  | reject (code : Nat) (message : String) : AuthOutcome

/-- `API_KEYS = process.env.API_KEYS?.split(",").filter(Boolean) || []`:
split the environment string on commas and drop empty pieces. -/
def apiKeysOf (env : Option String) : List String :=
  match env with
  | none => []
  | some s => ((splitOnChar ',' s.data).map String.mk).filter (fun k => k != "")

/-- Truthiness of `process.env.JWT_SECRET` (absent or empty is falsy). -/
def optTruthy : Option String → Bool
  | none => false
  | some s => s != ""

/-- `authHeader.split(" ")[1]`: the second piece of the split, with the
JavaScript `undefined` (fewer than two pieces) conflated with `""` — both
are falsy and are only ever tested for truthiness before use. -/
def bearerToken (h : String) : String :=
  String.mk ((splitOnChar ' ' h.data).getD 1 [])

/-- The JWT half of `authenticateRequest` (reached only when the API-key
header is not truthy): check the `Bearer ` prefix, extract and
truthiness-test the token, check the secret, and dispatch on the verify
outcome; without a `Bearer`-prefixed header fall through to the 403
rejection. -/
def jwtBranch (secret : Option String) (verify : String → String → VerifyOutcome)
    (authHeader : Option String) : AuthOutcome :=
  match authHeader with
  | some h =>
    if "Bearer ".data.isPrefixOf h.data then
      let token := bearerToken h
      if token = "" then
        .reject 401 "Token de autenticación no proporcionado."
      else if optTruthy secret = false then
        .reject 500 "Error de configuración del servidor: clave secreta JWT no disponible."
      else
        match verify token (secret.getD "") with
        | .ok u => .next (.jwt u)
        | .expired => .reject 401 "Token expirado. Por favor, vuelva a autenticarse."
        | .malformed => .reject 401 "Token JWT mal formado o inválido."
        | .other => .reject 401 "Token inválido."
    else
      .reject 403 "Acceso denegado. Proporcione una API Key válida o un token JWT en el encabezado 'Authorization'."
  | none =>
    .reject 403 "Acceso denegado. Proporcione una API Key válida o un token JWT en el encabezado 'Authorization'."

/-- The request headers `authenticateRequest` reads: `req.header` returns
the header value or `undefined`, embedded as `Option String`. -/
structure AuthRequest where
  apiKeyHeader : Option String
  authHeader : Option String

/-- The `authenticateRequest` middleware.  `apiKeys` is the module-level
`API_KEYS` whitelist, `secret` is `process.env.JWT_SECRET` at request time,
and `verify` is the `jwt.verify` oracle.  `if (apiKey)` is a truthiness
test, so an absent header and a present-but-empty header both fall through
to the JWT branch.  (The surrounding `try`/`catch` that converts unexpected
exceptions to a 500 is unreachable in this model: no embedded step throws.) -/
def authenticateRequest (apiKeys : List String) (secret : Option String)
    (verify : String → String → VerifyOutcome) (req : AuthRequest) : AuthOutcome :=
  match req.apiKeyHeader with
  | some k =>
    if k != "" then
      if k ∈ apiKeys then .next (.apiKey k)
      else .reject 401 "API Key inválida."
    else jwtBranch secret verify req.authHeader
  | none => jwtBranch secret verify req.authHeader

/-! ## Request-body validator (`validarInteraccion`) -/

/-- Terminal action of the validator: `next()`, or a 400 response whose
`details` object names the failing parameter. -/
inductive ValidationOutcome where
  | next : ValidationOutcome
  | reject (code : Nat) (message : String) (parameter : String) : ValidationOutcome

/-- The guard `!x || typeof x !== "string" || x.trim() === ""` applied to a
destructured body field (the `trim` call is short-circuit-guarded by the
`typeof` check, so `strVal` is only meaningful on strings). -/
def invalidInteraccionField (v : JsValue) : Bool :=
  !jsTruthy v || jsTypeof v != "string" || jsTrim (strVal v) == ""

/-- The `validarInteraccion` middleware: check `usuarioId` first, then
`mensajeUsuario`, short-circuiting with a 400 naming the failing field. -/
def validarInteraccion (body : List (String × JsValue)) : ValidationOutcome :=
  if invalidInteraccionField (getField body "usuarioId") then
    .reject 400 "El campo 'usuarioId' es obligatorio y debe ser una cadena válida no vacía." "usuarioId"
  else if invalidInteraccionField (getField body "mensajeUsuario") then
    .reject 400 "El campo 'mensajeUsuario' es obligatorio y debe ser una cadena válida no vacía." "mensajeUsuario"
  else .next

/-! ## Error taxonomy (`AppError`, `Errores`) -/

/-- The `AppError` value: `name` is always `"AppError"` (set from
`this.constructor.name`), `code` the HTTP status integer, `details` an
arbitrary object, `timestamp` the `toISOString()` string taken at
construction (threaded in as an explicit argument, since it is the only
non-deterministic input).  The single path that can store a non-integer
code — NaN slipping through the guard of `Errores.Custom` — is modelled
with the honest JavaScript-number type by `CustomResult` below. -/
structure AppError where
  name : String
  message : String
  code : Int
  details : Json
  timestamp : String

/-- `AppError.prototype.toJSON`. -/
def AppError.toJSON (e : AppError) : Json :=
  .obj [("status", .str "error"),
        ("code", .num e.code),
        ("message", .str e.message),
        ("details", e.details),
        ("timestamp", .str e.timestamp)]

/-- The default parameter `code = 500` of `Errores.Custom`: substituted
when the caller omits the argument or passes `undefined`, before the guard
runs and without any warning. -/
def defaultedCode : JsValue → JsValue
  | .vUndefined => .vNum 500
  | c => c

/-- The code sanitization in `Errores.Custom`:
`typeof code !== "number" || code < 100 || code >= 600` falls back to 500
with a `console.warn`; the returned flag records whether the warning fired.
`typeof NaN` is `"number"` and both `NaN < 100` and `NaN >= 600` are
false, so a NaN code passes the guard and is kept unsanitized, with no
warning. -/
def sanitizeCode (code : JsValue) : JsValue × Bool :=
  match code with
  | .vNum n => if n < 100 ∨ 600 ≤ n then (.vNum 500, true) else (.vNum n, false)
  | .vNaN => (.vNaN, false)
  | _ => (.vNum 500, true)

/-- The outcome of a successful `Errores.Custom` call: the fields stored on
the constructed error object, with `code` kept at JavaScript-number type
(`JsValue`) because the NaN path stores NaN itself, plus whether
`console.warn` fired.  (Errors built elsewhere always carry integer codes
and are modelled by `AppError` above.) -/
structure CustomResult where
  name : String
  message : String
  code : JsValue
  details : Json
  timestamp : String
  warned : Bool

/-- `Errores.Custom(message, code, details, shouldLog)`: throws (modelled as
`Except.error` carrying the thrown message) unless `message` is a non-empty
string after trimming; applies the default parameter, then the sanitization
guard, to the code; returns the fields of the constructed error together
with the warned flag.  (`shouldLog` only controls the constructor's
`console.error` call and does not affect the value.) -/
def Errores.Custom (message : JsValue) (code : JsValue) (details : Json)
    (shouldLog : Bool) (now : String) : Except String CustomResult :=
  if jsTypeof message != "string" || jsTrim (strVal message) == "" then
    .error "❌ 'message' debe ser una cadena no vacía para Errores.Custom."
  else
    .ok { name := "AppError"
          message := strVal message
          code := (sanitizeCode (defaultedCode code)).1
          details := details
          timestamp := now
          warned := (sanitizeCode (defaultedCode code)).2 }

/-! ## Theorems -/

/-- Claim C8: every `AppError` serializes, via `toJSON`, to the envelope
with `status = "error"` whose `code`, `message`, `details` and `timestamp`
fields are exactly the error's own fields — looking each key up in the
produced JSON object recovers the field unchanged, so the conversion
round-trips these fields. -/
theorem appError_toJSON_roundtrip (e : AppError) :
    jLookup e.toJSON "status" = some (.str "error") ∧
    jLookup e.toJSON "code" = some (.num e.code) ∧
    jLookup e.toJSON "message" = some (.str e.message) ∧
    jLookup e.toJSON "details" = some e.details ∧
    jLookup e.toJSON "timestamp" = some (.str e.timestamp) :=
  ⟨rfl, rfl, rfl, rfl, rfl⟩

/-- Claim C9, counterexample: the log entry built by the `finish` callback
names its status field `status`, not `statusCode` — its key list differs
from the shape the claim states. -/
theorem logEntry_statusKey_counterexample :
    jsonKeys (mkLogEntry ⟨"GET", "/api/interactuar", 200, 5000000, "2025-07-05T18:30:00.000Z"⟩)
      = ["method", "path", "status", "durationMs", "timestamp"] ∧
    (["method", "path", "status", "durationMs", "timestamp"] : List String)
      ≠ ["method", "path", "statusCode", "durationMs", "timestamp"] :=
  ⟨rfl, by decide⟩

/-- Eviction characterized: pushing onto a log drops the oldest entry
exactly when the capacity would be exceeded. -/
theorem pushEvict_eq (l : List Json) (e : Json) :
    pushEvict l e = l.drop (if 1000 < l.length + 1 then 1 else 0) ++ [e] := by
  unfold pushEvict MAX_LOG_ENTRIES
  by_cases h : 1000 < l.length + 1
  · rw [if_pos (by simp; omega), if_pos h]
    cases l with
    | nil => simp at h
    | cons a t => simp
  · rw [if_neg (by simp; omega), if_neg h]
    simp

/-- Claim C9 (amended): every completion step creates exactly one log entry,
appended at the tail of the log (evicting the oldest entry only when the
capacity of 1000 would be exceeded); the entry has exactly the shape
`method, path, status, durationMs, timestamp` — with the status field named
`status`, not `statusCode` — its `durationMs` is the non-negative truncated
millisecond count, and its `timestamp` is the ISO string taken at finish
time. -/
theorem finishStep_one_entry_shape (s : MetricsStore) (r : FinishInfo) :
    (finishStep s r).requestLog
      = s.requestLog.drop (if 1000 < s.requestLog.length + 1 then 1 else 0)
          ++ [mkLogEntry r] ∧
    jsonKeys (mkLogEntry r) = ["method", "path", "status", "durationMs", "timestamp"] ∧
    jLookup (mkLogEntry r) "durationMs" = some (.num ((r.durationNs / 1000000 : Nat) : Int)) ∧
    0 ≤ ((r.durationNs / 1000000 : Nat) : Int) ∧
    jLookup (mkLogEntry r) "timestamp" = some (.str r.timestamp) := by
  refine ⟨?_, rfl, rfl, by omega, rfl⟩
  unfold finishStep
  split <;> exact pushEvict_eq s.requestLog (mkLogEntry r)

/-- Claim C7, counterexample: `Custom("x", NaN)` defeats the sanitization —
`typeof NaN` is `"number"` and both `NaN < 100` and `NaN >= 600` are
false — so the returned error's code is NaN itself: not coerced to 500,
not equal to any integer (in particular none in `[100, 600)`), and with no
warning side effect. -/
theorem custom_nan_code_counterexample :
    Errores.Custom (.vStr "x") .vNaN (.obj []) false "2025-07-05T18:30:00.000Z"
      = .ok { name := "AppError", message := "x", code := .vNaN,
              details := .obj [], timestamp := "2025-07-05T18:30:00.000Z",
              warned := false } ∧
    (∀ n : Int, JsValue.vNaN ≠ .vNum n) ∧
    JsValue.vNaN ≠ .vNum 500 :=
  ⟨rfl, fun _ h => JsValue.noConfusion h, fun h => JsValue.noConfusion h⟩

/-- Claim C7 (amended): `Custom("x", 999)` yields an error with code 500
and the warning side effect fired; every error `Custom` returns for a
non-NaN code argument has an integer code in `[100, 600)`, any
out-of-range numeric code being coerced to 500 with the warning; a NaN
code argument alone escapes the guard and is stored unsanitized, without
a warning. -/
theorem custom_code_sanitized_except_nan :
    (∀ now : String,
      Errores.Custom (.vStr "x") (.vNum 999) (.obj []) false now
        = .ok { name := "AppError", message := "x", code := .vNum 500,
                details := .obj [], timestamp := now, warned := true }) ∧
    (∀ (m c : JsValue) (d : Json) (l : Bool) (now : String) (r : CustomResult),
      c ≠ .vNaN → Errores.Custom m c d l now = .ok r →
      ∃ n : Int, r.code = .vNum n ∧ 100 ≤ n ∧ n < 600) ∧
    (∀ (m : JsValue) (d : Json) (l : Bool) (now : String) (r : CustomResult) (n : Int),
      Errores.Custom m (.vNum n) d l now = .ok r → (n < 100 ∨ 600 ≤ n) →
      r.code = .vNum 500 ∧ r.warned = true) ∧
    (∀ (m : JsValue) (d : Json) (l : Bool) (now : String) (r : CustomResult),
      Errores.Custom m .vNaN d l now = .ok r →
      r.code = .vNaN ∧ r.warned = false) := by
  refine ⟨fun now => rfl, ?_, ?_, ?_⟩
  · intro m c d l now r hc h
    unfold Errores.Custom at h
    split at h
    · cases h
    · injection h with h1
      obtain rfl := h1.symm
      show ∃ n : Int, (sanitizeCode (defaultedCode c)).1 = .vNum n ∧ 100 ≤ n ∧ n < 600
      cases c with
      | vNaN => exact absurd rfl hc
      | vUndefined => exact ⟨500, rfl, by omega, by omega⟩
      | vNull => exact ⟨500, rfl, by omega, by omega⟩
      | vStr s => exact ⟨500, rfl, by omega, by omega⟩
      | vBool b => exact ⟨500, rfl, by omega, by omega⟩
      | vNum n =>
        by_cases hn : n < 100 ∨ 600 ≤ n
        · refine ⟨500, ?_, by omega, by omega⟩
          simp [defaultedCode, sanitizeCode, hn]
        · refine ⟨n, ?_, by omega, by omega⟩
          simp [defaultedCode, sanitizeCode, hn]
  · intro m d l now r n h hn
    unfold Errores.Custom at h
    split at h
    · cases h
    · injection h with h1
      obtain rfl := h1.symm
      constructor
      · show (sanitizeCode (defaultedCode (.vNum n))).1 = .vNum 500
        simp [defaultedCode, sanitizeCode, hn]
      · show (sanitizeCode (defaultedCode (.vNum n))).2 = true
        simp [defaultedCode, sanitizeCode, hn]
  · intro m d l now r h
    unfold Errores.Custom at h
    split at h
    · cases h
    · injection h with h1
      obtain rfl := h1.symm
      exact ⟨rfl, rfl⟩

/-- Witness for C7: `Custom("x", 999, .., "T")` returns successfully with a
non-NaN code argument, so its stored code is an in-range integer by the
theorem. -/
theorem custom_code_sanitized_except_nan_witness :
    ∃ n : Int, (JsValue.vNum 500 : JsValue) = .vNum n ∧ 100 ≤ n ∧ n < 600 :=
  custom_code_sanitized_except_nan.2.1 (.vStr "x") (.vNum 999) (.obj []) false
    "2025-07-05T18:30:00.000Z"
    { name := "AppError", message := "x", code := .vNum 500,
      details := .obj [], timestamp := "2025-07-05T18:30:00.000Z", warned := true }
    (by decide) rfl

/-- Claim C5, failing input: on a two-entry log, `getLastRequests(-5)` is
`Math.max(1, -5 || 10) = 1` and returns only the most recent entry, not the
same sequence as `getLastRequests(10)` — contradicting the function's own
comment ("defaulting to 10 if invalid") and doc ("Debe ser un entero
positivo").  The non-numeric half of the claim does hold:
`getLastRequests("abc")` equals `getLastRequests(10)`. -/
theorem getLastRequests_invalid_limit_divergence :
    getLastRequests [.num 0, .num 1] (.vNum (-5))
      ≠ getLastRequests [.num 0, .num 1] (.vNum 10) ∧
    getLastRequests [.num 0, .num 1] (.vStr "abc")
      = getLastRequests [.num 0, .num 1] (.vNum 10) ∧
    getLastRequests [.num 0, .num 1] (.vNum (-5)) = [.num 1] ∧
    getLastRequests [.num 0, .num 1] (.vNum 10) = [.num 1, .num 0] :=
  ⟨fun h => absurd (congrArg List.length h) (by decide), rfl, rfl, rfl⟩

/-- Claim C6, counterexample: a body carrying the spec's field names
`userId`/`userMessage` has no `usuarioId` field at all, so the validator
rejects naming `usuarioId` — not `userMessage` as the claim states. -/
theorem validarInteraccion_english_body_counterexample :
    validarInteraccion [("userId", .vStr "u1"), ("userMessage", .vStr "")]
      = .reject 400 "El campo 'usuarioId' es obligatorio y debe ser una cadena válida no vacía." "usuarioId" ∧
    ("usuarioId" : String) ≠ "userMessage" :=
  ⟨rfl, by decide⟩

/-- Claim C6 (amended): the validator's required fields are `usuarioId` and
`mensajeUsuario`.  A body with `usuarioId = "u1"` and an empty
`mensajeUsuario` is rejected with 400 naming `mensajeUsuario`; any body
whose two fields are strings that are non-empty after trimming passes to
the next handler. -/
theorem validarInteraccion_fields :
    validarInteraccion [("usuarioId", .vStr "u1"), ("mensajeUsuario", .vStr "")]
      = .reject 400 "El campo 'mensajeUsuario' es obligatorio y debe ser una cadena válida no vacía." "mensajeUsuario" ∧
    (∀ (body : List (String × JsValue)) (u m : String),
      getField body "usuarioId" = .vStr u → jsTrim u ≠ "" →
      getField body "mensajeUsuario" = .vStr m → jsTrim m ≠ "" →
      validarInteraccion body = .next) := by
  refine ⟨rfl, ?_⟩
  intro body u m hu htu hm htm
  have hu0 : u ≠ "" := by intro h; subst h; exact htu rfl
  have hm0 : m ≠ "" := by intro h; subst h; exact htm rfl
  have h1 : invalidInteraccionField (.vStr u) = false := by
    simp [invalidInteraccionField, jsTruthy, jsTypeof, strVal]
    exact ⟨hu0, htu⟩
  have h2 : invalidInteraccionField (.vStr m) = false := by
    simp [invalidInteraccionField, jsTruthy, jsTypeof, strVal]
    exact ⟨hm0, htm⟩
  unfold validarInteraccion
  rw [hu, hm, h1, h2]
  rfl

/-- Witness for C6: the concrete valid body from the spec passes. -/
theorem validarInteraccion_fields_witness :
    validarInteraccion [("usuarioId", .vStr "u1"), ("mensajeUsuario", .vStr "hi")]
      = .next :=
  validarInteraccion_fields.2 [("usuarioId", .vStr "u1"), ("mensajeUsuario", .vStr "hi")]
    "u1" "hi" rfl (by decide) rfl (by decide)

/-- Claim C1, counterexample: a request whose `X-API-KEY` header is present
but empty carries a key that is never a whitelist member (the whitelist is
filtered of empty strings), yet `authenticateRequest` does not reject it
with 401 "API Key inválida." — the truthiness test `if (apiKey)` skips the
API-key branch and the request falls through to the 403 rejection. -/
theorem auth_apiKey_empty_header_counterexample :
    authenticateRequest (apiKeysOf (some "validkey123")) none (fun _ _ => .other)
      ⟨some "", none⟩
      = .reject 403 "Acceso denegado. Proporcione una API Key válida o un token JWT en el encabezado 'Authorization'." ∧
    "" ∉ apiKeysOf (some "validkey123") ∧
    (AuthOutcome.reject 403 "Acceso denegado. Proporcione una API Key válida o un token JWT en el encabezado 'Authorization'.")
      ≠ .reject 401 "API Key inválida." :=
  ⟨rfl, by decide, by simp⟩

/-- Claim C1 (amended): for every request whose `X-API-KEY` header is
present with a non-empty value, `authenticateRequest` attaches
`method: "apiKey"` with the key and proceeds when the key is in the
whitelist, and rejects with 401 "API Key inválida." when it is not. -/
theorem auth_apiKey_nonempty_decides (apiKeys : List String) (secret : Option String)
    (verify : String → String → VerifyOutcome) (ah : Option String) (k : String)
    (hk : k ≠ "") :
    (k ∈ apiKeys →
      authenticateRequest apiKeys secret verify ⟨some k, ah⟩ = .next (.apiKey k)) ∧
    (k ∉ apiKeys →
      authenticateRequest apiKeys secret verify ⟨some k, ah⟩
        = .reject 401 "API Key inválida.") := by
  have hkt : (k != "") = true := by simp [hk]
  exact ⟨fun hmem => by simp [authenticateRequest, hkt, hmem],
         fun hmem => by simp [authenticateRequest, hkt, hmem]⟩

/-- Witness for C1: the spec's whitelisted key proceeds with the apiKey
method attached. -/
theorem auth_apiKey_nonempty_decides_witness :
    authenticateRequest (apiKeysOf (some "validkey123")) none (fun _ _ => .other)
      ⟨some "validkey123", none⟩ = .next (.apiKey "validkey123") :=
  (auth_apiKey_nonempty_decides (apiKeysOf (some "validkey123")) none
    (fun _ _ => .other) none "validkey123" (by decide)).1 (by decide)

/-- Claim C10, counterexample: with the `X-API-KEY` header present but
empty — a key that is not in the whitelist — and a valid Bearer token, the
middleware does evaluate the `Authorization` header and proceeds on the JWT
branch instead of rejecting with 401. -/
theorem auth_empty_key_bearer_counterexample :
    authenticateRequest (apiKeysOf (some "validkey123")) (some "topsecret")
      (fun _ _ => .ok (.obj [])) ⟨some "", some "Bearer tok"⟩
      = .next (.jwt (.obj [])) ∧
    "" ∉ apiKeysOf (some "validkey123") ∧
    (AuthOutcome.next (.jwt (.obj []))) ≠ .reject 401 "API Key inválida." :=
  ⟨rfl, by decide, by simp⟩

/-- Claim C10 (amended): for every request whose `X-API-KEY` header is
present with a non-empty value, the outcome of `authenticateRequest` is
independent of the `Authorization` header, the secret and the verifier; in
particular a non-empty non-whitelisted key is rejected with 401 even
alongside a valid Bearer token. -/
theorem auth_apiKey_branch_priority (apiKeys : List String) (s₁ s₂ : Option String)
    (v₁ v₂ : String → String → VerifyOutcome) (a₁ a₂ : Option String) (k : String)
    (hk : k ≠ "") :
    authenticateRequest apiKeys s₁ v₁ ⟨some k, a₁⟩
      = authenticateRequest apiKeys s₂ v₂ ⟨some k, a₂⟩ ∧
    (k ∉ apiKeys →
      authenticateRequest apiKeys s₁ v₁ ⟨some k, a₁⟩
        = .reject 401 "API Key inválida.") := by
  have hkt : (k != "") = true := by simp [hk]
  constructor
  · by_cases hmem : k ∈ apiKeys <;> simp [authenticateRequest, hkt, hmem]
  · intro hmem; simp [authenticateRequest, hkt, hmem]

/-- Witness for C10: a non-whitelisted non-empty key next to a Bearer token
that would verify is still rejected with 401. -/
theorem auth_apiKey_branch_priority_witness :
    authenticateRequest (apiKeysOf (some "validkey123")) (some "topsecret")
      (fun _ _ => .ok (.obj [("sub", .str "u1")]))
      ⟨some "otherkey", some "Bearer goodtoken"⟩
      = .reject 401 "API Key inválida." :=
  (auth_apiKey_branch_priority (apiKeysOf (some "validkey123"))
    (some "topsecret") (some "topsecret")
    (fun _ _ => .ok (.obj [("sub", .str "u1")]))
    (fun _ _ => .ok (.obj [("sub", .str "u1")]))
    (some "Bearer goodtoken") (some "Bearer goodtoken")
    "otherkey" (by decide)).2 (by decide)

/-- Claim C2: without an `X-API-KEY` header and with a Bearer header whose
extracted token is non-empty (and the secret available), an expired token
is rejected with 401 and its own message, a malformed/invalid-signature
token is rejected with 401 and a different message, the two messages are
distinct, and a request presenting neither credential is rejected with 403. -/
theorem auth_jwt_error_paths (apiKeys : List String)
    (verify : String → String → VerifyOutcome) (s h t : String)
    (hs : s ≠ "") (hb : "Bearer ".data.isPrefixOf h.data = true)
    (ht : bearerToken h = t) (htne : t ≠ "") :
    (verify t s = .expired →
      authenticateRequest apiKeys (some s) verify ⟨none, some h⟩
        = .reject 401 "Token expirado. Por favor, vuelva a autenticarse.") ∧
    (verify t s = .malformed →
      authenticateRequest apiKeys (some s) verify ⟨none, some h⟩
        = .reject 401 "Token JWT mal formado o inválido.") ∧
    ("Token expirado. Por favor, vuelva a autenticarse."
      ≠ "Token JWT mal formado o inválido.") ∧
    (∀ (apiKeys' : List String) (secret' : Option String)
        (verify' : String → String → VerifyOutcome),
      authenticateRequest apiKeys' secret' verify' ⟨none, none⟩
        = .reject 403 "Acceso denegado. Proporcione una API Key válida o un token JWT en el encabezado 'Authorization'.") := by
  refine ⟨?_, ?_, by decide, fun _ _ _ => rfl⟩ <;>
    · intro hv
      simp [authenticateRequest, jwtBranch, hb, ht, htne, optTruthy, hs, hv]

/-- Witness for C2: a concrete expired-token request is rejected with the
expiry message. -/
theorem auth_jwt_error_paths_witness :
    authenticateRequest [] (some "topsecret") (fun _ _ => .expired)
      ⟨none, some "Bearer sometoken"⟩
      = .reject 401 "Token expirado. Por favor, vuelva a autenticarse." :=
  (auth_jwt_error_paths [] (fun _ _ => .expired) "topsecret" "Bearer sometoken"
    "sometoken" (by decide) (by decide) rfl (by decide)).1 rfl

/-- A finish step never changes `totalRequests`. -/
theorem finishStep_totalRequests (s : MetricsStore) (r : FinishInfo) :
    (finishStep s r).totalRequests = s.totalRequests := by
  unfold finishStep; split <;> rfl

/-- `totalRequests` after a trace is the number of `start` events. -/
theorem mrun_totalRequests (evs : List MEvent) : ∀ s : MetricsStore,
    (mrun s evs).totalRequests = s.totalRequests + countStarts evs := by
  induction evs with
  | nil => intro s; simp [mrun, countStarts]
  | cons e t ih =>
    intro s
    simp only [mrun, List.foldl_cons] at ih ⊢
    rw [ih (metricsStep s e)]
    cases e with
    | start => simp [metricsStep, countStarts]; omega
    | finish r => simp [metricsStep, countStarts, finishStep_totalRequests]

/-- `successfulResponses` after a trace is the number of success-range
finish events. -/
theorem mrun_successfulResponses (evs : List MEvent) : ∀ s : MetricsStore,
    (mrun s evs).successfulResponses = s.successfulResponses + countSucc evs := by
  induction evs with
  | nil => intro s; simp [mrun, countSucc]
  | cons e t ih =>
    intro s
    simp only [mrun, List.foldl_cons] at ih ⊢
    rw [ih (metricsStep s e)]
    cases e with
    | start => simp [metricsStep, countSucc]
    | finish r =>
      simp only [metricsStep, countSucc, finishStep]
      split <;> simp <;> omega

/-- `failedResponses` after a trace is the number of non-success finish
events. -/
theorem mrun_failedResponses (evs : List MEvent) : ∀ s : MetricsStore,
    (mrun s evs).failedResponses = s.failedResponses + countFail evs := by
  induction evs with
  | nil => intro s; simp [mrun, countFail]
  | cons e t ih =>
    intro s
    simp only [mrun, List.foldl_cons] at ih ⊢
    rw [ih (metricsStep s e)]
    cases e with
    | start => simp [metricsStep, countFail]
    | finish r =>
      simp only [metricsStep, countFail, finishStep]
      split <;> simp <;> omega

/-- Every finish event is classified into exactly one of the two buckets. -/
theorem countSucc_add_countFail (evs : List MEvent) :
    countSucc evs + countFail evs = countFinishes evs := by
  induction evs with
  | nil => rfl
  | cons e t ih =>
    cases e with
    | start => simpa [countSucc, countFail, countFinishes] using ih
    | finish r =>
      simp only [countSucc, countFail, countFinishes]
      split <;> omega

/-- Claim C3: over any trace with `N` starts and `N` finishes (all requests
completed), the store ends with `totalRequests = N`, the success counter
equal to the number of `[200,400)` completions, the failure counter equal
to the number of other completions, and
`successfulResponses + failedResponses = N = totalRequests`. -/
theorem metrics_counts_balance (evs : List MEvent) (N : Nat)
    (hs : countStarts evs = N) (hf : countFinishes evs = N) :
    (mrun metricsStore evs).totalRequests = N ∧
    (mrun metricsStore evs).successfulResponses = countSucc evs ∧
    (mrun metricsStore evs).failedResponses = countFail evs ∧
    (mrun metricsStore evs).successfulResponses
      + (mrun metricsStore evs).failedResponses = N := by
  have h1 := mrun_totalRequests evs metricsStore
  have h2 := mrun_successfulResponses evs metricsStore
  have h3 := mrun_failedResponses evs metricsStore
  have h4 := countSucc_add_countFail evs
  rw [show metricsStore.totalRequests = 0 from rfl] at h1
  rw [show metricsStore.successfulResponses = 0 from rfl] at h2
  rw [show metricsStore.failedResponses = 0 from rfl] at h3
  exact ⟨by omega, by omega, by omega, by omega⟩

/-- A two-request trace used to witness C3: one success, one failure. -/
def demoTrace : List MEvent :=
  [.start, .finish ⟨"GET", "/api/interactuar", 200, 3000000, "t1"⟩,
   .start, .finish ⟨"POST", "/api/interactuar", 500, 4000000, "t2"⟩]

/-- Witness for C3 at the concrete two-request trace. -/
theorem metrics_counts_balance_witness :
    (mrun metricsStore demoTrace).totalRequests = 2 ∧
    (mrun metricsStore demoTrace).successfulResponses = countSucc demoTrace ∧
    (mrun metricsStore demoTrace).failedResponses = countFail demoTrace ∧
    (mrun metricsStore demoTrace).successfulResponses
      + (mrun metricsStore demoTrace).failedResponses = 2 :=
  metrics_counts_balance demoTrace 2 rfl rfl

/-- Eviction keeps the log within capacity. -/
theorem pushEvict_length (l : List Json) (e : Json) (hl : l.length ≤ 1000) :
    (pushEvict l e).length ≤ 1000 := by
  unfold pushEvict MAX_LOG_ENTRIES
  split
  · simp only [List.length_tail, List.length_append, List.length_singleton]
    omega
  · next hcond =>
    simp only [List.length_append, List.length_singleton] at hcond ⊢
    omega

/-- The capacity bound is preserved along any trace. -/
theorem mrun_log_length (evs : List MEvent) : ∀ s : MetricsStore,
    s.requestLog.length ≤ 1000 → ((mrun s evs).requestLog).length ≤ 1000 := by
  induction evs with
  | nil => intro s hs; exact hs
  | cons e t ih =>
    intro s hs
    simp only [mrun, List.foldl_cons] at ih ⊢
    refine ih (metricsStep s e) ?_
    cases e with
    | start => exact hs
    | finish r =>
      show (finishStep s r).requestLog.length ≤ 1000
      unfold finishStep
      split <;> exact pushEvict_length _ _ hs

/-- Dropping one more element commutes with taking the tail of the first
list of an append. -/
theorem drop_succ_tail_append (l x : List Json) (n : Nat) (hl : l ≠ []) :
    (l ++ x).drop (n + 1) = (l.tail ++ x).drop n := by
  cases l with
  | nil => exact absurd rfl hl
  | cons a t => simp [List.drop_succ_cons]

/-- Folding eviction-append over a list of entries keeps exactly the
newest `1000` of the concatenation, in order. -/
theorem foldl_pushEvict (es : List Json) : ∀ l : List Json, l.length ≤ 1000 →
    List.foldl pushEvict l es = (l ++ es).drop (l.length + es.length - 1000) := by
  induction es with
  | nil =>
    intro l hl
    simp only [List.foldl_nil, List.append_nil, List.length_nil, Nat.add_zero]
    rw [show l.length - 1000 = 0 by omega, List.drop_zero]
  | cons e t ih =>
    intro l hl
    simp only [List.foldl_cons]
    by_cases hlen : l.length < 1000
    · have hp : pushEvict l e = l ++ [e] := by
        unfold pushEvict MAX_LOG_ENTRIES
        rw [if_neg (by
          simp only [List.length_append, List.length_cons, List.length_nil]
          omega)]
      rw [hp, ih (l ++ [e]) (by
        simp only [List.length_append, List.length_cons, List.length_nil]
        omega)]
      have h1 : (l ++ [e]) ++ t = l ++ (e :: t) := by simp
      have h2 : (l ++ [e]).length + t.length - 1000
          = l.length + (e :: t).length - 1000 := by
        simp only [List.length_append, List.length_cons, List.length_nil]
        omega
      rw [h1, h2]
    · have hl1000 : l.length = 1000 := by omega
      have hlnil : l ≠ [] := by
        intro h; rw [h] at hl1000; simp at hl1000
      have hp : pushEvict l e = l.tail ++ [e] := by
        unfold pushEvict MAX_LOG_ENTRIES
        rw [if_pos (by
          simp only [List.length_append, List.length_cons, List.length_nil]
          omega)]
        cases l with
        | nil => exact absurd rfl hlnil
        | cons a t' => simp
      have htl : (l.tail ++ [e]).length ≤ 1000 := by
        simp only [List.length_append, List.length_cons, List.length_nil,
          List.length_tail]
        omega
      rw [hp, ih _ htl]
      have h2 : (l.tail ++ [e]).length + t.length - 1000 = t.length := by
        simp only [List.length_append, List.length_cons, List.length_nil,
          List.length_tail, hl1000]
        omega
      have h3 : l.length + (e :: t).length - 1000 = t.length + 1 := by
        simp only [List.length_cons, hl1000]; omega
      have h4 : l.tail ++ [e] ++ t = l.tail ++ (e :: t) := by simp
      rw [h2, h3, h4]
      exact (drop_succ_tail_append l (e :: t) t.length hlnil).symm

/-- A trace of pure finish events acts on the log as the fold of
`pushEvict` over the corresponding entries. -/
theorem mrun_finish_log (infos : List FinishInfo) : ∀ s : MetricsStore,
    (mrun s (infos.map MEvent.finish)).requestLog
      = List.foldl pushEvict s.requestLog (infos.map mkLogEntry) := by
  induction infos with
  | nil => intro s; rfl
  | cons r t ih =>
    intro s
    simp only [List.map_cons, mrun, List.foldl_cons] at ih ⊢
    rw [ih (metricsStep s (.finish r))]
    have hstep : (metricsStep s (MEvent.finish r)).requestLog
        = pushEvict s.requestLog (mkLogEntry r) := by
      show (finishStep s r).requestLog = _
      unfold finishStep; split <;> rfl
    rw [hstep]

/-- Claim C4: the request log never exceeds 1000 entries after any trace,
and after exactly 1001 completions from a fresh store the log holds
exactly the most recent 1000 entries in insertion order — only the oldest
entry was dropped. -/
theorem requestLog_bounded_and_fifo :
    (∀ evs : List MEvent, ((mrun metricsStore evs).requestLog).length ≤ 1000) ∧
    (∀ infos : List FinishInfo, infos.length = 1001 →
      (mrun metricsStore (infos.map MEvent.finish)).requestLog
        = (infos.map mkLogEntry).drop 1) := by
  constructor
  · intro evs
    exact mrun_log_length evs metricsStore (by simp [metricsStore])
  · intro infos hlen
    rw [mrun_finish_log infos metricsStore]
    rw [show metricsStore.requestLog = [] from rfl]
    rw [foldl_pushEvict (infos.map mkLogEntry) [] (by simp)]
    simp [List.length_map, hlen]

/-- Witness for C4 at a concrete list of 1001 identical completions. -/
theorem requestLog_bounded_and_fifo_witness :
    (mrun metricsStore
        ((List.replicate 1001 (⟨"GET", "/", 200, 0, "t"⟩ : FinishInfo)).map MEvent.finish)).requestLog
      = ((List.replicate 1001 (⟨"GET", "/", 200, 0, "t"⟩ : FinishInfo)).map mkLogEntry).drop 1 :=
  requestLog_bounded_and_fifo.2 _ (List.length_replicate 1001 _)
